import Mathlib

/-!
Verification of the content-classification and unified-grocery-list core of the
FloNotes application (a React Native note-taking app).  The TypeScript source is
shallowly embedded below: substring matching mirrors `String.prototype.includes`,
lower-casing mirrors `String.prototype.toLowerCase` (ASCII range, which covers
every keyword the code matches against), JavaScript objects parsed from JSON are
embedded as the inductive `JsValue` with explicit JS truthiness, and fallible
JavaScript evaluation (property access on `null`/`undefined`) is embedded via
`Except`.  Two screens of the app each define their own copies of
`categorizeFoodItem` and `buildUnifiedGroceryList`; the second copy is embedded
with a `V2` suffix.
-/

namespace FloNotes

/-- Prefix test on character lists: `isStart pat l` is true when `pat` occurs at
the head of `l`.  Used to embed `String.prototype.includes`. -/
def isStart : List Char → List Char → Bool
  | [], _ => true
  | _ :: _, [] => false
  | p :: ps, c :: cs => p == c && isStart ps cs

/-- Substring occurrence on character lists: `hasSub pat l` is true when `pat`
occurs contiguously anywhere in `l`. -/
def hasSub (pat : List Char) : List Char → Bool
  | [] => isStart pat []
  | c :: cs => isStart pat (c :: cs) || hasSub pat cs

/-- Embedding of JavaScript `s.includes(pat)` (substring containment). -/
def jsIncludes (s pat : String) : Bool := hasSub pat.data s.data

/-- Embedding of JavaScript `s.toLowerCase()` (ASCII case folding, which is all
the source's keyword matching exercises). -/
def lowerStr (s : String) : String := ⟨s.data.map Char.toLower⟩

/-- Whitespace test used by the embedding of `String.prototype.trim`. -/
def isWs (c : Char) : Bool := c == ' ' || c == '\t' || c == '\n' || c == '\r'

/-- Embedding of JavaScript `s.trim()`: strip leading and trailing whitespace. -/
def trimStr (s : String) : String :=
  ⟨((s.data.dropWhile isWs).reverse.dropWhile isWs).reverse⟩

/-- The 11-way food category enumeration `FOOD_CATEGORIES` of the notes screen
(part_003 lines 31-34). -/
def FOOD_CATEGORIES : List String :=
  ["produce", "dairy", "meat", "seafood", "frozen", "pantry",
   "bakery", "beverages", "snacks", "spices", "other"]

/-- Embedding of `categorizeFoodItem` (part_003 lines 119-160, first variant):
lower-case the item, then test keyword groups in source order, first match
wins, falling through to "other". -/
def categorizeFoodItem (item : String) : String :=
  let itm := lowerStr item
  if jsIncludes itm "fruit" || jsIncludes itm "vegetable" ||
     jsIncludes itm "lettuce" || jsIncludes itm "tomato" ||
     jsIncludes itm "onion" || jsIncludes itm "potato" then "produce"
  else if jsIncludes itm "milk" || jsIncludes itm "cheese" ||
     jsIncludes itm "yogurt" || jsIncludes itm "butter" ||
     jsIncludes itm "cream" then "dairy"
  else if jsIncludes itm "chicken" || jsIncludes itm "beef" ||
     jsIncludes itm "pork" || jsIncludes itm "turkey" then "meat"
  else if jsIncludes itm "fish" || jsIncludes itm "shrimp" ||
     jsIncludes itm "salmon" || jsIncludes itm "tuna" then "seafood"
  else if jsIncludes itm "frozen" || jsIncludes itm "ice cream" then "frozen"
  else if jsIncludes itm "flour" || jsIncludes itm "sugar" ||
     jsIncludes itm "oil" || jsIncludes itm "pasta" ||
     jsIncludes itm "can" || jsIncludes itm "sauce" then "pantry"
  else if jsIncludes itm "bread" || jsIncludes itm "bagel" ||
     jsIncludes itm "muffin" || jsIncludes itm "bakery" then "bakery"
  else if jsIncludes itm "juice" || jsIncludes itm "soda" ||
     jsIncludes itm "water" || jsIncludes itm "coffee" ||
     jsIncludes itm "tea" then "beverages"
  else if jsIncludes itm "chip" || jsIncludes itm "cookie" ||
     jsIncludes itm "crackers" || jsIncludes itm "nuts" then "snacks"
  else if jsIncludes itm "spice" || jsIncludes itm "herb" ||
     jsIncludes itm "salt" || jsIncludes itm "pepper" ||
     jsIncludes itm "seasoning" then "spices"
  else "other"

/-- Embedding of `categorizeFoodItem` (part_003 lines 1062-1090, second
variant): different group order and keyword sets, same fall-through. -/
def categorizeFoodItemV2 (item : String) : String :=
  let itm := lowerStr item
  if jsIncludes itm "milk" || jsIncludes itm "cheese" ||
     jsIncludes itm "yogurt" || jsIncludes itm "cream" then "dairy"
  else if jsIncludes itm "apple" || jsIncludes itm "banana" ||
     jsIncludes itm "vegetable" || jsIncludes itm "lettuce" ||
     jsIncludes itm "tomato" || jsIncludes itm "onion" then "produce"
  else if jsIncludes itm "chicken" || jsIncludes itm "beef" ||
     jsIncludes itm "pork" then "meat"
  else if jsIncludes itm "fish" || jsIncludes itm "shrimp" ||
     jsIncludes itm "salmon" then "seafood"
  else if jsIncludes itm "ice" || jsIncludes itm "frozen" then "frozen"
  else if jsIncludes itm "bread" || jsIncludes itm "bagel" ||
     jsIncludes itm "muffin" then "bakery"
  else if jsIncludes itm "salt" || jsIncludes itm "pepper" ||
     jsIncludes itm "spice" || jsIncludes itm "herb" then "spices"
  else if jsIncludes itm "soda" || jsIncludes itm "juice" ||
     jsIncludes itm "water" || jsIncludes itm "drink" then "beverages"
  else if jsIncludes itm "chip" || jsIncludes itm "cookie" ||
     jsIncludes itm "cracker" then "snacks"
  else if jsIncludes itm "flour" || jsIncludes itm "sugar" ||
     jsIncludes itm "rice" || jsIncludes itm "pasta" ||
     jsIncludes itm "can" then "pantry"
  else "other"

/-- Every keyword tested by the first `categorizeFoodItem` variant. -/
def keywordsV1 : List String :=
  ["fruit", "vegetable", "lettuce", "tomato", "onion", "potato",
   "milk", "cheese", "yogurt", "butter", "cream",
   "chicken", "beef", "pork", "turkey",
   "fish", "shrimp", "salmon", "tuna",
   "frozen", "ice cream",
   "flour", "sugar", "oil", "pasta", "can", "sauce",
   "bread", "bagel", "muffin", "bakery",
   "juice", "soda", "water", "coffee", "tea",
   "chip", "cookie", "crackers", "nuts",
   "spice", "herb", "salt", "pepper", "seasoning"]

/-- Every keyword tested by the second `categorizeFoodItem` variant. -/
def keywordsV2 : List String :=
  ["milk", "cheese", "yogurt", "cream",
   "apple", "banana", "vegetable", "lettuce", "tomato", "onion",
   "chicken", "beef", "pork",
   "fish", "shrimp", "salmon",
   "ice", "frozen",
   "bread", "bagel", "muffin",
   "salt", "pepper", "spice", "herb",
   "soda", "juice", "water", "drink",
   "chip", "cookie", "cracker",
   "flour", "sugar", "rice", "pasta", "can"]

/-- Embedding of the task record `{text, done, category}` held inside a note
(part_003 lines 39-52). -/
structure NoteTask where
  text : String
  done : Bool
  category : String
deriving DecidableEq

/-- Embedding of the `recipeDetails` record (part_003 lines 45-51). -/
structure RecipeDetails where
  ingredients : List String
  instructions : List String
  prepTime : Option String
  cookTime : Option String
  servings : Option Int
deriving DecidableEq

/-- Embedding of a note of the notes screen state (part_003 lines 39-52).
The optional `isRecipe` flag is a `Bool` (absent behaves as `false` in every
use site, which tests it for truthiness). -/
structure Note where
  id : String
  title : String
  category : String
  tasks : List NoteTask
  isRecipe : Bool
  recipeDetails : Option RecipeDetails
deriving DecidableEq

/-- Embedding of a unified-grocery-list entry `{text, done, recipeSource?}`
(part_003 lines 55-57). -/
structure UItem where
  text : String
  done : Bool
  recipeSource : Option String
deriving DecidableEq

/-- The mutable `groceryItems` object of `buildUnifiedGroceryList`, embedded as
a total map from category name to its item list (it is initialized for every
member of `FOOD_CATEGORIES` and only ever indexed at categorizer outputs). -/
def emptyGrocery : String → List UItem := fun _ => []

/-- One guarded insertion of `buildUnifiedGroceryList` (part_003 lines 81-87 and
98-103): push the item at `cat` only when no item already stored under `cat`
has a case-insensitive-equal text. -/
def addIfAbsent (m : String → List UItem) (cat : String) (it : UItem) :
    String → List UItem :=
  if (m cat).any (fun x => lowerStr x.text == lowerStr it.text) then m
  else fun c => if c = cat then m cat ++ [it] else m c

/-- The recipe half of note processing (part_003 lines 75-89): when the note is
flagged as a recipe and has recipe details, insert each ingredient tagged with
the note title as `recipeSource`. -/
def processRecipePart (categorize : String → String) (m : String → List UItem)
    (note : Note) : String → List UItem :=
  if note.isRecipe then
    match note.recipeDetails with
    | some rd =>
        rd.ingredients.foldl
          (fun acc ing =>
            addIfAbsent acc (categorize ing) ⟨ing, false, some note.title⟩) m
    | none => m
  else m

/-- Processing of a single note by `buildUnifiedGroceryList` (part_003 lines
74-106): recipe ingredients first, then the tasks of notes whose own category
is grocery or shopping (case-insensitive). -/
def processNote (categorize : String → String) (m : String → List UItem)
    (note : Note) : String → List UItem :=
  if lowerStr note.category = "grocery" ∨ lowerStr note.category = "shopping" then
    note.tasks.foldl
      (fun acc t => addIfAbsent acc (categorize t.text) ⟨t.text, t.done, none⟩)
      (processRecipePart categorize m note)
  else processRecipePart categorize m note

/-- Shared body of both `buildUnifiedGroceryList` variants: start from freshly
initialized empty categories, process every note, and keep only the non-empty
categories in `FOOD_CATEGORIES` (= JS object key) order.  The first variant
deletes empty keys, the second copies the non-empty keys; both materialize the
same association list. -/
def buildUnifiedCore (categorize : String → String) (notes : List Note) :
    List (String × List UItem) :=
  let m := notes.foldl (processNote categorize) emptyGrocery
  FOOD_CATEGORIES.filterMap (fun c => if m c = [] then none else some (c, m c))

/-- Embedding of `buildUnifiedGroceryList` (part_003 lines 65-116, first
variant, using the first categorizer). -/
def buildUnifiedGroceryList (notes : List Note) : List (String × List UItem) :=
  buildUnifiedCore categorizeFoodItem notes

/-- Embedding of `buildUnifiedGroceryList` (part_003 lines 1006-1059, second
variant, using the second categorizer). -/
def buildUnifiedGroceryListV2 (notes : List Note) : List (String × List UItem) :=
  buildUnifiedCore categorizeFoodItemV2 notes

/-- The part of the notes screen component state that the unified-list effect
reads and writes (part_003 lines 39-62). -/
structure ScreenState where
  notes : List Note
  unifiedGroceryList : List (String × List UItem)
deriving DecidableEq

/-- Embedding of one run of the `buildUnifiedGroceryList` callback as a state
transformer: it reads `notes`, recomputes the unified list from scratch and
stores it via `setUnifiedGroceryList`; the prior `unifiedGroceryList` is never
read. -/
def runBuild (s : ScreenState) : ScreenState :=
  { s with unifiedGroceryList := buildUnifiedGroceryList s.notes }

/-- Embedding of a `GroceryItem` `{name, quantity, done}` of GroceryManager. -/
structure GItem where
  name : String
  quantity : String
  done : Bool
deriving DecidableEq

/-- An incoming item `{name, quantity?}` of `addItemsFromVoiceOrNote`
(GroceryManager lines 24-27); `quantity` is optional. -/
structure InItem where
  name : String
  quantity : Option String
deriving DecidableEq

/-- An incoming `{category, items}` group of `addItemsFromVoiceOrNote`. -/
structure CategoryGroup where
  category : String
  items : List InItem
deriving DecidableEq

/-- JS truthiness of the optional `item.quantity` string (`if (item.quantity)`,
GroceryManager line 134): defined and non-empty. -/
def qTruthy : Option String → Bool
  | none => false
  | some q => !(q == "")

/-- The initial six-way `groceryData.categories` object of GroceryManager
(lines 47-56), in JS key insertion order. -/
def initialCategories : List (String × List GItem) :=
  [("produce", []), ("dairy", []), ("meat", []), ("bakery", []),
   ("pantry", []), ("other", [])]

/-- `findIndex` plus in-place quantity update on one category list
(GroceryManager lines 128-138): the first item whose name is
case-insensitive-equal to the incoming name gets its quantity overwritten when
a truthy quantity is supplied; the returned flag records whether a match was
found. -/
def updQty (it : InItem) : List GItem → List GItem × Bool
  | [] => ([], false)
  | g :: gs =>
      if lowerStr g.name == lowerStr it.name then
        ((if qTruthy it.quantity then
            { g with quantity := it.quantity.getD "" } else g) :: gs, true)
      else
        let r := updQty it gs
        (g :: r.1, r.2)

/-- The `Object.keys(...).forEach` scan over every category (GroceryManager
lines 126-139), accumulating the `itemExists` flag. -/
def updAll (it : InItem) : List (String × List GItem) →
    List (String × List GItem) × Bool
  | [] => ([], false)
  | (c, l) :: rest =>
      let r1 := updQty it l
      let r2 := updAll it rest
      ((c, r1.1) :: r2.1, r1.2 || r2.2)

/-- Processing of one incoming item (GroceryManager lines 122-149): update the
quantity of any case-insensitive-equal existing item anywhere, and append a new
`{name, quantity || '', done: false}` entry to the target category only when no
category contained a match. -/
def addOneItem (cats : List (String × List GItem)) (target : String)
    (it : InItem) : List (String × List GItem) :=
  let r := updAll it cats
  if r.2 then r.1
  else r.1.map (fun p =>
    if p.1 = target then (p.1, p.2 ++ [⟨it.name, it.quantity.getD "", false⟩])
    else p)

/-- The category-name keyword routing of `addItemsFromVoiceOrNote`
(GroceryManager lines 105-119). -/
def targetCategoryOf (category : String) : String :=
  let c := lowerStr category
  if jsIncludes c "produce" || jsIncludes c "vegetable" ||
     jsIncludes c "fruit" then "produce"
  else if jsIncludes c "dairy" || jsIncludes c "milk" ||
     jsIncludes c "cheese" then "dairy"
  else if jsIncludes c "meat" || jsIncludes c "protein" then "meat"
  else if jsIncludes c "bakery" || jsIncludes c "bread" then "bakery"
  else if jsIncludes c "pantry" || jsIncludes c "canned" then "pantry"
  else "other"

/-- Embedding of `addItemsFromVoiceOrNote` (GroceryManager lines 101-154)
acting on the categories association list. -/
def addItemsFromVoiceOrNote (groups : List CategoryGroup)
    (cats : List (String × List GItem)) : List (String × List GItem) :=
  groups.foldl
    (fun acc grp =>
      grp.items.foldl
        (fun acc2 it => addOneItem acc2 (targetCategoryOf grp.category) it) acc)
    cats

/-- Embedding of a JavaScript value as produced by `JSON.parse` (plus a
constructor for the JS undefined value, the result of accessing an absent
property). -/
inductive JsValue where
  | null
  | undefined
  | bool (b : Bool)
  | num (n : Int)
  | str (s : String)
  | arr (elems : List JsValue)
  | obj (fields : List (String × JsValue))

/-- JS truthiness: `null`, `undefined`, `false`, `0` and `""` are falsy; every
object and array is truthy. -/
def truthy : JsValue → Bool
  | .null => false
  | .undefined => false
  | .bool b => b
  | .num n => !(n == 0)
  | .str s => !(s == "")
  | .arr _ => true
  | .obj _ => true

/-- First-match field lookup in an object literal (JSON objects carry each key
once). -/
def lookupField : List (String × JsValue) → String → JsValue
  | [], _ => .undefined
  | (k, v) :: rest, key => if k = key then v else lookupField rest key

/-- Non-throwing property access, used only at sites where the source's
short-circuit guards guarantee the receiver is not `null`/`undefined`: objects
yield the field (or `undefined`), primitives and arrays yield `undefined` for
the keys the dispatcher reads. -/
def fieldOf : JsValue → String → JsValue
  | .obj fs, k => lookupField fs k
  | _, _ => .undefined

/-- Throwing property access, used at sites where the source can actually
dereference `null`/`undefined` (raising `TypeError`). -/
def getField : JsValue → String → Except String JsValue
  | .null, k => .error ("Cannot read properties of null (reading " ++ k ++ ")")
  | .undefined, k => .error ("Cannot read properties of undefined (reading " ++ k ++ ")")
  | v, k => .ok (fieldOf v k)

/-- `Array.isArray`. -/
def isArray : JsValue → Bool
  | .arr _ => true
  | _ => false

/-- `typeof x === 'object'` (true for objects, arrays and `null`). -/
def typeofIsObject : JsValue → Bool
  | .obj _ => true
  | .arr _ => true
  | .null => true
  | _ => false

/-- `typeof x === 'string'`. -/
def isStringV : JsValue → Bool
  | .str _ => true
  | _ => false

/-- Element list of an array value (only read under an `Array.isArray` guard). -/
def asArr : JsValue → List JsValue
  | .arr xs => xs
  | _ => []

/-- String content of a string value (only read under a `typeof === 'string'`
guard). -/
def asStr : JsValue → String
  | .str s => s
  | _ => ""

/-- The dispatcher input: either a raw string together with its `JSON.parse`
outcome (`none` when parsing throws), or an already-parsed object/value. -/
inductive Payload where
  | strPayload (raw : String) (parsed : Option JsValue)
  | objPayload (v : JsValue)

/-- The view selection computed by `ContentTypeDetector`: a shape tag plus the
payload handed to the selected view. -/
inductive Shape where
  | noContent
  | noteText (content : String) (title : Option String)
  | flatTasks (tasks : List JsValue) (showCategories : Bool)
  | groupedTasks (tasks : List JsValue) (groups : List JsValue)
  | groceryCats (data : JsValue)
  | recipeShape (v : JsValue)
  | contentNote (content : String) (titleField : JsValue) (propTitle : Option String)
  | unknown (v : JsValue)
  | errorShape (msg : String) (raw : Payload)

/-- CASE 1 predicate (ContentTypeDetector line 50): `parsedContent.tasks &&
Array.isArray(parsedContent.tasks) && parsedContent.intent`. -/
def cond1 (v : JsValue) : Bool :=
  truthy (fieldOf v "tasks") && isArray (fieldOf v "tasks") &&
  truthy (fieldOf v "intent")

/-- CASE 2 predicate (lines 63-64). -/
def cond2 (v : JsValue) : Bool :=
  truthy (fieldOf v "tasks") && isArray (fieldOf v "tasks") &&
  truthy (fieldOf v "noteGroups") && isArray (fieldOf v "noteGroups")

/-- CASE 3 predicate (lines 77-79): a truthy `categories` of object type with a
truthy `produce`, `dairy` or `pantry` field — the only three grocery keys the
source tests. -/
def cond3 (v : JsValue) : Bool :=
  truthy (fieldOf v "categories") && typeofIsObject (fieldOf v "categories") &&
  (truthy (fieldOf (fieldOf v "categories") "produce") ||
   truthy (fieldOf (fieldOf v "categories") "dairy") ||
   truthy (fieldOf (fieldOf v "categories") "pantry"))

/-- CASE 4 predicate (lines 91-93). -/
def cond4 (v : JsValue) : Bool :=
  truthy (fieldOf v "title") && truthy (fieldOf v "ingredients") &&
  isArray (fieldOf v "ingredients") && truthy (fieldOf v "instructions") &&
  isArray (fieldOf v "instructions")

/-- CASE 7 body (lines 126-135). -/
def case7chain (v : JsValue) (title : Option String) : Shape :=
  if truthy (fieldOf v "content") && isStringV (fieldOf v "content") then
    .contentNote (asStr (fieldOf v "content")) (fieldOf v "title") title
  else .unknown v

/-- CASE 6 body (lines 117-123): a non-empty string renders as a note,
otherwise fall to CASE 7/8. -/
def case6chain (v : JsValue) (title : Option String) : Shape :=
  match v with
  | .str s => if s.length > 0 then .noteText s title else case7chain v title
  | _ => case7chain v title

/-- CASE 5 (lines 102-114): a non-empty array whose first element defines both
`text` and `done`.  Accessing `.text` on a `null`/`undefined` first element
throws; on a defined `.text` the `.done` access cannot throw. -/
def case5chain (v : JsValue) (title : Option String) : Except String Shape :=
  match v with
  | .arr (x :: xs) =>
      match getField x "text" with
      | .error e => .error e
      | .ok tx =>
          match tx with
          | .undefined => .ok (case6chain v title)
          | _ =>
              match fieldOf x "done" with
              | .undefined => .ok (case6chain v title)
              | _ => .ok (.flatTasks (x :: xs) true)
  | _ => .ok (case6chain v title)

/-- The classification body for a parsed content value that is not
`null`/`undefined` (for which no predicate before CASE 5 can throw). -/
def classifyNonNull (v : JsValue) (title : Option String) : Except String Shape :=
  if cond1 v then .ok (.flatTasks (asArr (fieldOf v "tasks")) false)
  else if cond2 v then
    .ok (.groupedTasks (asArr (fieldOf v "tasks")) (asArr (fieldOf v "noteGroups")))
  else if cond3 v then .ok (.groceryCats v)
  else if cond4 v then .ok (.recipeShape v)
  else case5chain v title

/-- The try-block body of `ContentTypeDetector` (lines 45-148) on the parsed
content: the first property access (`parsedContent.tasks`, line 50) throws when
the parsed content is `null` or `undefined`. -/
def runBody (v : JsValue) (title : Option String) : Except String Shape :=
  match v with
  | .null => .error "Cannot read properties of null (reading tasks)"
  | .undefined => .error "Cannot read properties of undefined (reading tasks)"
  | _ => classifyNonNull v title

/-- Embedding of the `ContentTypeDetector` component (lines 15-167): falsy
content short-circuits to the no-content view; a string that fails `JSON.parse`
renders as a plain note; otherwise the classification body runs and any thrown
exception is caught (lines 149-166) and converted to the error view carrying
the message and the raw original payload. -/
def detect (content : Payload) (title : Option String) : Shape :=
  match content with
  | .strPayload raw parsed =>
      if raw = "" then .noContent
      else
        match parsed with
        | none => .noteText raw title
        | some v =>
            match runBody v title with
            | .ok s => s
            | .error msg => .errorShape msg (.strPayload raw parsed)
  | .objPayload v =>
      if truthy v then
        match runBody v title with
        | .ok s => s
        | .error msg => .errorShape msg (.objPayload v)
      else .noContent

/-- Whether (and with which parsed value) a payload reaches the try-block
classification body of the dispatcher. -/
def bodyReached : Payload → Option JsValue
  | .strPayload raw parsed => if raw = "" then none else parsed
  | .objPayload v => if truthy v then some v else none

/-- Result record of `extractTasksFromText` (lib/ai.ts lines 54-58 and 61). -/
structure TasksIntentResult where
  tasks : JsValue
  intent : JsValue
  reason : JsValue

/-- The try-block of `extractTasksFromText` (lib/ai.ts lines 24-58) after the
two OpenAI calls: `call` stands for the awaited, JSON-parsed pair (intent
completion, task completion); any rejection or parse failure is an `error`.
The field reads on the parsed objects can themselves throw (e.g. a completion
that parsed to `null`). -/
def extractTasksBody (call : Except String (JsValue × JsValue)) :
    Except String TasksIntentResult := do
  let r ← call
  let tasksV ← getField r.2 "tasks"
  let action ← getField r.1 "action"
  let reason ← getField r.1 "reason"
  pure ⟨if truthy tasksV then tasksV else .arr [], action, reason⟩

/-- Embedding of `extractTasksFromText` (lib/ai.ts lines 23-63): on any failure
the catch block returns `{tasks: [], intent: 'new', reason: 'Error processing
text'}`. -/
def extractTasksFromText (call : Except String (JsValue × JsValue)) :
    TasksIntentResult :=
  match extractTasksBody call with
  | .ok r => r
  | .error _ => ⟨.arr [], .str "new", .str "Error processing text"⟩

/-- Result record of `categorizeTasksAndSuggestNotes` (lib/ai.ts lines 94-105). -/
structure CategorizeResult where
  tasks : JsValue
  noteGroups : JsValue
  reasoning : JsValue

/-- The try-block of `categorizeTasksAndSuggestNotes` (lib/ai.ts lines 74-98):
`call` stands for the awaited, JSON-parsed completion content. -/
def categorizeTasksBody (call : Except String JsValue) :
    Except String CategorizeResult := do
  let r ← call
  let t ← getField r "tasks"
  let g ← getField r "noteGroups"
  let s ← getField r "reasoning"
  pure ⟨if truthy t then t else .arr [],
        if truthy g then g else .arr [],
        if truthy s then s else .str ""⟩

/-- Embedding of `categorizeTasksAndSuggestNotes` (lib/ai.ts lines 69-107): on
any failure the catch block returns empty `tasks` and `noteGroups` arrays. -/
def categorizeTasksAndSuggestNotes (call : Except String JsValue) :
    CategorizeResult :=
  match categorizeTasksBody call with
  | .ok r => r
  | .error _ => ⟨.arr [], .arr [], .str "Error processing text"⟩

/-- The fallback value of `extractGroceryList` (metro.config.js lines 683-693):
a `categories` object mapping each of the six keys to an empty array. -/
def emptyGroceryCategories : JsValue :=
  .obj [("categories",
    .obj [("produce", .arr []), ("dairy", .arr []), ("meat", .arr []),
          ("bakery", .arr []), ("pantry", .arr []), ("other", .arr [])])]

/-- Embedding of `extractGroceryList` (metro.config.js lines 651-695): the
parsed schema-validated completion is returned as is; on any failure the catch
block returns the six-way all-empty categories object. -/
def extractGroceryList (call : Except String JsValue) : JsValue :=
  match call with
  | .ok v => v
  | .error _ => emptyGroceryCategories

/-! ## Helper lemmas for the unified-list builder -/

/-- A property preserved by every fold step is preserved by the whole fold. -/
theorem foldl_preserves {α β : Type} (P : β → Prop) (f : β → α → β)
    (h : ∀ b a, P b → P (f b a)) :
    ∀ (l : List α) (b : β), P b → P (l.foldl f b)
  | [], _, hb => hb
  | x :: xs, b, hb => foldl_preserves P f h xs (f b x) (h b x hb)

/-- `addIfAbsent` keeps the lowered texts of every category list duplicate
free. -/
theorem addIfAbsent_nodupLow (m : String → List UItem) (cat : String)
    (it : UItem)
    (h : ∀ c, ((m c).map (fun x => lowerStr x.text)).Nodup) :
    ∀ c, (((addIfAbsent m cat it) c).map (fun x => lowerStr x.text)).Nodup := by
  intro c
  unfold addIfAbsent
  split
  · exact h c
  · rename_i hany
    show (List.map (fun x => lowerStr x.text)
      (if c = cat then m cat ++ [it] else m c)).Nodup
    by_cases hc : c = cat
    · rw [if_pos hc]
      simp only [List.map_append, List.map_cons, List.map_nil]
      refine List.nodup_append.mpr ⟨h cat, List.nodup_singleton _, ?_⟩
      intro a ha ha'
      rcases List.mem_map.mp ha with ⟨x, hx, hex⟩
      have haeq : a = lowerStr it.text := by
        simpa using ha'
      apply hany
      refine List.any_eq_true.mpr ⟨x, hx, ?_⟩
      simp [hex, haeq]
    · rw [if_neg hc]
      exact h c

/-- When the insertion category is the categorizer output of the inserted text,
`addIfAbsent` keeps every stored item in the category its own text maps to. -/
theorem addIfAbsent_catInv (categorize : String → String)
    (m : String → List UItem) (it : UItem)
    (h : ∀ c, ∀ x ∈ m c, categorize x.text = c) :
    ∀ c, ∀ x ∈ (addIfAbsent m (categorize it.text) it) c,
      categorize x.text = c := by
  intro c x hx
  unfold addIfAbsent at hx
  split at hx
  · exact h c x hx
  · have hx' : x ∈ (if c = categorize it.text then
        m (categorize it.text) ++ [it] else m c) := hx
    by_cases hc : c = categorize it.text
    · rw [if_pos hc] at hx'
      rcases List.mem_append.mp hx' with hold | hnew
      · rw [hc]
        exact h _ x hold
      · have hxit : x = it := by simpa using hnew
        rw [hxit, hc]
    · rw [if_neg hc] at hx'
      exact h c x hx'

/-- Both builder invariants lift from `addIfAbsent` steps to a whole
`processNote` step. -/
theorem processNote_preserves {categorize : String → String}
    (P : (String → List UItem) → Prop)
    (hP : ∀ (m : String → List UItem) (it : UItem),
      P m → P (addIfAbsent m (categorize it.text) it))
    (m : String → List UItem) (note : Note) (hm : P m) :
    P (processNote categorize m note) := by
  have hrec : P (processRecipePart categorize m note) := by
    unfold processRecipePart
    split
    · split
      · exact foldl_preserves P _
          (fun mm ing hmm => hP mm ⟨ing, false, some note.title⟩ hmm) _ _ hm
      · exact hm
    · exact hm
  unfold processNote
  split
  · exact foldl_preserves P _
      (fun mm t hmm => hP mm ⟨t.text, t.done, none⟩ hmm) _ _ hrec
  · exact hrec

/-- Membership in the materialized unified list is exactly a non-empty
category of the folded grocery map. -/
theorem buildUnifiedCore_mem (categorize : String → String) (notes : List Note)
    (cat : String) (items : List UItem)
    (h : (cat, items) ∈ buildUnifiedCore categorize notes) :
    items = (notes.foldl (processNote categorize) emptyGrocery) cat := by
  unfold buildUnifiedCore at h
  rcases List.mem_filterMap.mp h with ⟨c, _, hec⟩
  split at hec
  · cases hec
  · cases hec
    rfl

/-- The grocery map folded over any notes collection has duplicate-free
lowered texts in every category. -/
theorem build_map_nodup (categorize : String → String) (notes : List Note) :
    ∀ c, (((notes.foldl (processNote categorize) emptyGrocery) c).map
      (fun x => lowerStr x.text)).Nodup := by
  refine foldl_preserves
    (fun m => ∀ c, ((m c).map (fun x => lowerStr x.text)).Nodup) _
    ?_ notes emptyGrocery ?_
  · intro m note hm
    exact processNote_preserves _
      (fun mm it hmm => addIfAbsent_nodupLow mm (categorize it.text) it hmm)
      m note hm
  · intro c
    simp [emptyGrocery]

/-! ## C1 -/

/-- C1: in the mapping returned by either `buildUnifiedGroceryList` variant, no
two items in the same category have case-insensitive-equal text — the lowered
texts of every per-category list are pairwise distinct. -/
theorem C1_unified_dedup (notes : List Note) (cat : String)
    (items : List UItem)
    (h : (cat, items) ∈ buildUnifiedGroceryList notes ∨
         (cat, items) ∈ buildUnifiedGroceryListV2 notes) :
    (items.map (fun it => lowerStr it.text)).Nodup := by
  rcases h with h | h
  · rw [buildUnifiedCore_mem categorizeFoodItem notes cat items h]
    exact build_map_nodup categorizeFoodItem notes cat
  · rw [buildUnifiedCore_mem categorizeFoodItemV2 notes cat items h]
    exact build_map_nodup categorizeFoodItemV2 notes cat

/-- A recipe note contributing the ingredient "Milk". -/
def milkRecipeNote : Note :=
  { id := "1", title := "Cake", category := "recipe", tasks := [],
    isRecipe := true,
    recipeDetails := some ⟨["Milk"], [], none, none, none⟩ }

/-- A grocery note contributing the task "milk". -/
def milkGroceryNote : Note :=
  { id := "2", title := "Shopping", category := "Grocery",
    tasks := [⟨"milk", false, ""⟩], isRecipe := false, recipeDetails := none }

/-- C1 witness: inserting "Milk" (recipe ingredient) and then "milk" (grocery
task) yields exactly one item in the dairy category, and C1 applies to it. -/
theorem C1_unified_dedup_witness :
    ("dairy", [(⟨"Milk", false, some "Cake"⟩ : UItem)]) ∈
      buildUnifiedGroceryList [milkRecipeNote, milkGroceryNote] ∧
    (([(⟨"Milk", false, some "Cake"⟩ : UItem)]).map
      (fun it => lowerStr it.text)).Nodup :=
  ⟨by decide,
   C1_unified_dedup [milkRecipeNote, milkGroceryNote] "dairy" _
     (Or.inl (by decide))⟩

/-! ## C2 -/

set_option maxHeartbeats 2000000 in
/-- C2: both `categorizeFoodItem` variants are total over all strings and
always return a tag of the fixed enumeration, and any string (empty or
garbage) matching no keyword of any keyword group falls through to "other". -/
theorem C2_categorizer_total (s t : String)
    (h1 : ∀ kw ∈ keywordsV1, jsIncludes (lowerStr t) kw = false)
    (h2 : ∀ kw ∈ keywordsV2, jsIncludes (lowerStr t) kw = false) :
    (categorizeFoodItem s ∈ FOOD_CATEGORIES ∧
     categorizeFoodItemV2 s ∈ FOOD_CATEGORIES) ∧
    categorizeFoodItem t = "other" ∧ categorizeFoodItemV2 t = "other" := by
  refine ⟨⟨?_, ?_⟩, ?_, ?_⟩
  · unfold categorizeFoodItem
    dsimp only
    repeat' split
    all_goals decide
  · unfold categorizeFoodItemV2
    dsimp only
    repeat' split
    all_goals decide
  · simp only [keywordsV1, List.mem_cons, List.not_mem_nil, or_false,
      forall_eq_or_imp, forall_eq] at h1
    unfold categorizeFoodItem
    simp [h1]
  · simp only [keywordsV2, List.mem_cons, List.not_mem_nil, or_false,
      forall_eq_or_imp, forall_eq] at h2
    unfold categorizeFoodItemV2
    simp [h2]

/-- C2 witness: the empty string matches no keyword and is categorized
"other" by both variants, and both results are in the enumeration. -/
theorem C2_categorizer_total_witness :
    ((∀ kw ∈ keywordsV1, jsIncludes (lowerStr "") kw = false) ∧
     (∀ kw ∈ keywordsV2, jsIncludes (lowerStr "") kw = false)) ∧
    (categorizeFoodItem "zzgarbage" ∈ FOOD_CATEGORIES ∧
     categorizeFoodItemV2 "zzgarbage" ∈ FOOD_CATEGORIES) ∧
    categorizeFoodItem "" = "other" ∧ categorizeFoodItemV2 "" = "other" :=
  ⟨⟨by decide, by decide⟩,
   C2_categorizer_total "zzgarbage" "" (by decide) (by decide)⟩

/-! ## C3 -/

/-- C3: one run of the builder effect is a pure function of the notes
collection (two states with equal notes produce equal unified lists, whatever
their prior unified lists were), and re-running it is idempotent. -/
theorem C3_builder_idempotent (s t : ScreenState) (h : s.notes = t.notes) :
    (runBuild s).unifiedGroceryList = (runBuild t).unifiedGroceryList ∧
    runBuild (runBuild s) = runBuild s := by
  constructor
  · simp [runBuild, h]
  · rfl

/-- C3 witness: two states sharing notes but with different stale unified
lists produce the same rebuilt list, idempotently. -/
theorem C3_builder_idempotent_witness :
    ((runBuild ⟨[milkGroceryNote], []⟩).unifiedGroceryList =
      (runBuild ⟨[milkGroceryNote], [("stale", [])]⟩).unifiedGroceryList) ∧
    runBuild (runBuild ⟨[milkGroceryNote], []⟩) =
      runBuild ⟨[milkGroceryNote], []⟩ :=
  C3_builder_idempotent ⟨[milkGroceryNote], []⟩
    ⟨[milkGroceryNote], [("stale", [])]⟩ rfl

/-! ## C7 -/

/-- C7 counterexample: on "frozen chicken" the two `categorizeFoodItem`
variants agree — both test the meat group before the frozen group and return
"meat"; neither returns "frozen". -/
theorem C7_counterexample :
    categorizeFoodItem "frozen chicken" = "meat" ∧
    categorizeFoodItemV2 "frozen chicken" = "meat" := by decide

/-- C7 (amended): both variants test meat before frozen, so "frozen chicken"
yields "meat" in both; the two variants are nevertheless unequal as functions,
e.g. on "juice" (which contains the second variant's keyword "ice"). -/
theorem C7_variants_disagree :
    categorizeFoodItem "frozen chicken" = "meat" ∧
    categorizeFoodItemV2 "frozen chicken" = "meat" ∧
    categorizeFoodItem "juice" = "beverages" ∧
    categorizeFoodItemV2 "juice" = "frozen" ∧
    categorizeFoodItem "juice" ≠ categorizeFoodItemV2 "juice" := by decide

/-! ## C10 -/

/-- The grocery map folded over any notes collection stores every item in the
category computed from its own text. -/
theorem build_map_catInv (categorize : String → String) (notes : List Note) :
    ∀ c, ∀ x ∈ (notes.foldl (processNote categorize) emptyGrocery) c,
      categorize x.text = c := by
  refine foldl_preserves
    (fun m => ∀ c, ∀ x ∈ m c, categorize x.text = c) _ ?_ notes emptyGrocery ?_
  · intro m note hm
    exact processNote_preserves _
      (fun mm it hmm => addIfAbsent_catInv categorize mm it hmm) m note hm
  · intro c x hx
    simp [emptyGrocery] at hx

/-- `categorizeFoodItem` only depends on the lowered input. -/
theorem categorizeFoodItem_lower_eq (s t : String)
    (h : lowerStr s = lowerStr t) :
    categorizeFoodItem s = categorizeFoodItem t := by
  unfold categorizeFoodItem
  rw [h]

/-- C10: within one output of `buildUnifiedGroceryList`, case-insensitive-equal
item texts never appear under two different categories, because each item's
category is the categorizer applied to its own text and the categorizer
lowercases its input first. -/
theorem C10_no_cross_category_dup (notes : List Note) (c1 c2 : String)
    (its1 its2 : List UItem) (x1 x2 : UItem)
    (h1 : (c1, its1) ∈ buildUnifiedGroceryList notes)
    (h2 : (c2, its2) ∈ buildUnifiedGroceryList notes)
    (hx1 : x1 ∈ its1) (hx2 : x2 ∈ its2)
    (hlow : lowerStr x1.text = lowerStr x2.text) :
    c1 = c2 := by
  unfold buildUnifiedGroceryList at h1 h2
  have e1 := buildUnifiedCore_mem categorizeFoodItem notes c1 its1 h1
  have e2 := buildUnifiedCore_mem categorizeFoodItem notes c2 its2 h2
  have i1 := build_map_catInv categorizeFoodItem notes c1 x1 (e1 ▸ hx1)
  have i2 := build_map_catInv categorizeFoodItem notes c2 x2 (e2 ▸ hx2)
  rw [← i1, ← i2]
  exact categorizeFoodItem_lower_eq _ _ hlow

/-- C10 witness: instantiated at the Milk/milk collection, where both
occurrences live in the single dairy category. -/
theorem C10_no_cross_category_dup_witness : "dairy" = "dairy" :=
  C10_no_cross_category_dup [milkRecipeNote, milkGroceryNote]
    "dairy" "dairy" [⟨"Milk", false, some "Cake"⟩] [⟨"Milk", false, some "Cake"⟩]
    ⟨"Milk", false, some "Cake"⟩ ⟨"Milk", false, some "Cake"⟩
    (by decide) (by decide) (by decide) (by decide) (by decide)

/-! ## C4 -/

/-- `updQty` never changes the names or done flags of a category list, only
(possibly) a quantity. -/
theorem updQty_names (it : InItem) (l : List GItem) :
    (updQty it l).1.map (fun g => (g.name, g.done)) =
      l.map (fun g => (g.name, g.done)) := by
  induction l with
  | nil => rfl
  | cons g gs ih =>
      show ((if lowerStr g.name == lowerStr it.name then
          ((if qTruthy it.quantity then
              { g with quantity := it.quantity.getD "" } else g) :: gs, true)
        else
          let r := updQty it gs
          (g :: r.1, r.2)).1.map (fun g => (g.name, g.done))) = _
      split
      · split <;> rfl
      · simp only [List.map_cons]
        rw [ih]

/-- `updQty` reports a match when some item of the list has a
case-insensitive-equal name. -/
theorem updQty_found (it : InItem) (l : List GItem)
    (h : ∃ g ∈ l, lowerStr g.name = lowerStr it.name) :
    (updQty it l).2 = true := by
  induction l with
  | nil =>
      rcases h with ⟨g, hg, _⟩
      cases hg
  | cons g gs ih =>
      show ((if lowerStr g.name == lowerStr it.name then
          ((if qTruthy it.quantity then
              { g with quantity := it.quantity.getD "" } else g) :: gs, true)
        else
          let r := updQty it gs
          (g :: r.1, r.2)).2) = true
      split
      · rfl
      · rename_i hne
        rcases h with ⟨g', hg', he⟩
        rcases List.mem_cons.mp hg' with hgg | hmem
        · refine absurd ?_ hne
          rw [← hgg]
          simp [he]
        · exact ih ⟨g', hmem, he⟩

/-- The all-categories scan preserves every name and done flag. -/
theorem updAll_names (it : InItem) (cats : List (String × List GItem)) :
    (updAll it cats).1.map
        (fun p => (p.1, p.2.map (fun g => (g.name, g.done)))) =
      cats.map (fun p => (p.1, p.2.map (fun g => (g.name, g.done)))) := by
  induction cats with
  | nil => rfl
  | cons p rest ih =>
      obtain ⟨c, l⟩ := p
      show ((c, (updQty it l).1) :: (updAll it rest).1).map _ = _
      simp only [List.map_cons]
      rw [updQty_names, ih]

/-- The all-categories scan sets `itemExists` when any category holds an item
with a case-insensitive-equal name. -/
theorem updAll_found (it : InItem) (cats : List (String × List GItem))
    (h : ∃ p ∈ cats, ∃ g ∈ p.2, lowerStr g.name = lowerStr it.name) :
    (updAll it cats).2 = true := by
  induction cats with
  | nil =>
      rcases h with ⟨p, hp, _⟩
      cases hp
  | cons p rest ih =>
      obtain ⟨c, l⟩ := p
      show ((updQty it l).2 || (updAll it rest).2) = true
      rcases h with ⟨q, hq, g, hg, he⟩
      rcases List.mem_cons.mp hq with hqc | hmem
      · have hf : (updQty it l).2 = true := by
          refine updQty_found it l ⟨g, ?_, he⟩
          rw [hqc] at hg
          exact hg
        rw [hf]
        rfl
      · rw [ih ⟨q, hmem, g, hg, he⟩]
        simp

/-- C4 (amended): the de-duplication identity is the case-insensitive
(untrimmed) name.  In the Unified List Builder an insertion whose lowered text
already occurs in the target category changes nothing, and in GroceryManager an
incoming item whose lowered name already occurs in any category is never
appended — every name and done flag is preserved and at most a quantity is
overwritten. -/
theorem C4_dedup_identity (m : String → List UItem) (cat : String) (it : UItem)
    (hdup : (m cat).any (fun x => lowerStr x.text == lowerStr it.text) = true)
    (cats : List (String × List GItem)) (target : String) (jt : InItem)
    (hex : ∃ p ∈ cats, ∃ g ∈ p.2, lowerStr g.name = lowerStr jt.name) :
    addIfAbsent m cat it = m ∧
    (addOneItem cats target jt).map
        (fun p => (p.1, p.2.map (fun g => (g.name, g.done)))) =
      cats.map (fun p => (p.1, p.2.map (fun g => (g.name, g.done)))) := by
  constructor
  · unfold addIfAbsent
    rw [if_pos hdup]
  · show ((if (updAll jt cats).2 then (updAll jt cats).1
      else (updAll jt cats).1.map (fun p =>
        if p.1 = target then (p.1, p.2 ++ [⟨jt.name, jt.quantity.getD "", false⟩])
        else p)).map (fun p => (p.1, p.2.map (fun g => (g.name, g.done))))) = _
    rw [if_pos (updAll_found jt cats hex)]
    exact updAll_names jt cats

/-- A one-category grocery map holding "Milk" under dairy. -/
def mWit : String → List UItem :=
  fun c => if c = "dairy" then [⟨"Milk", false, none⟩] else []

/-- A GroceryManager state holding "milk" under dairy. -/
def gmWit : List (String × List GItem) :=
  [("produce", []), ("dairy", [⟨"milk", "1", false⟩]), ("meat", []),
   ("bakery", []), ("pantry", []), ("other", [])]

/-- C4 witness: adding "MILK" to either structure appends nothing. -/
theorem C4_dedup_identity_witness :
    addIfAbsent mWit "dairy" ⟨"MILK", true, none⟩ = mWit ∧
    (addOneItem gmWit "dairy" ⟨"MILK", some "2"⟩).map
        (fun p => (p.1, p.2.map (fun g => (g.name, g.done)))) =
      gmWit.map (fun p => (p.1, p.2.map (fun g => (g.name, g.done)))) :=
  C4_dedup_identity mWit "dairy" ⟨"MILK", true, none⟩ (by decide)
    gmWit "dairy" ⟨"MILK", some "2"⟩ (by decide)

/-- A grocery note whose tasks are " milk" and "milk". -/
def spaceMilkNote : Note :=
  { id := "3", title := "list", category := "grocery",
    tasks := [⟨" milk", false, ""⟩, ⟨"milk", false, ""⟩],
    isRecipe := false, recipeDetails := none }

/-- A GroceryManager state holding " milk" under dairy. -/
def gmSpace : List (String × List GItem) :=
  [("produce", []), ("dairy", [⟨" milk", "1", false⟩]), ("meat", []),
   ("bakery", []), ("pantry", []), ("other", [])]

/-- C4 counterexample: " milk" and "milk" are equal after trimming and
lowercasing, yet the builder appends both to the dairy category and
GroceryManager appends a second entry as well — the code never trims, so
trimmed-equal names are not treated as the same item. -/
theorem C4_counterexample :
    lowerStr (trimStr " milk") = lowerStr (trimStr "milk") ∧
    buildUnifiedGroceryList [spaceMilkNote] =
      [("dairy", [⟨" milk", false, none⟩, ⟨"milk", false, none⟩])] ∧
    addItemsFromVoiceOrNote [⟨"dairy", [⟨"milk", some "2"⟩]⟩] gmSpace =
      [("produce", []),
       ("dairy", [⟨" milk", "1", false⟩, ⟨"milk", "2", false⟩]),
       ("meat", []), ("bakery", []), ("pantry", []), ("other", [])] := by
  decide

/-! ## Dispatcher reduction helpers -/

/-- A truthy object payload whose body classifies successfully is dispatched to
that classification. -/
theorem detect_obj_ok (v : JsValue) (t : Option String) (s : Shape)
    (htr : truthy v = true) (hbody : runBody v t = .ok s) :
    detect (.objPayload v) t = s := by
  unfold detect
  dsimp only
  rw [if_pos htr, hbody]

/-- A non-empty string payload with a parse result whose body classifies
successfully is dispatched to that classification. -/
theorem detect_str_ok (raw : String) (v : JsValue) (t : Option String)
    (s : Shape) (hraw : raw ≠ "") (hbody : runBody v t = .ok s) :
    detect (.strPayload raw (some v)) t = s := by
  unfold detect
  dsimp only
  rw [if_neg hraw, hbody]

/-- A truthy object payload whose body throws is dispatched to the error shape
carrying the message and the payload. -/
theorem detect_obj_err (v : JsValue) (t : Option String) (msg : String)
    (htr : truthy v = true) (hbody : runBody v t = .error msg) :
    detect (.objPayload v) t = .errorShape msg (.objPayload v) := by
  unfold detect
  dsimp only
  rw [if_pos htr, hbody]

/-- A non-empty string payload with a parse result whose body throws is
dispatched to the error shape carrying the message and the payload. -/
theorem detect_str_err (raw : String) (v : JsValue) (t : Option String)
    (msg : String) (hraw : raw ≠ "") (hbody : runBody v t = .error msg) :
    detect (.strPayload raw (some v)) t =
      .errorShape msg (.strPayload raw (some v)) := by
  unfold detect
  dsimp only
  rw [if_neg hraw, hbody]

/-! ## C5 -/

/-- The payload `{"tasks": [], "intent": ""}`: a tasks array together with a
present but falsy `intent` field. -/
def intentEmptyPayload : JsValue :=
  .obj [("tasks", .arr []), ("intent", .str "")]

/-- C5 counterexample: a payload with a `tasks` array and a present `intent`
field whose value is the empty string is classified as the unknown shape, not
as the flat task list — CASE 1 requires `intent` to be truthy, not merely
present. -/
theorem C5_counterexample :
    lookupField [("tasks", JsValue.arr []), ("intent", JsValue.str "")]
      "intent" = .str "" ∧
    isArray (fieldOf intentEmptyPayload "tasks") = true ∧
    detect (.objPayload intentEmptyPayload) none = .unknown intentEmptyPayload :=
  ⟨rfl, rfl, rfl⟩

/-- C5 (amended): for every payload whose parsed form has a `tasks` array and a
truthy `intent` field, the dispatcher classifies it as the flat task list shape
with `showCategories = false`, whatever other fields the payload carries (the
first rule takes precedence over all later ones). -/
theorem C5_flat_tasks_priority (fs : List (String × JsValue))
    (ts : List JsValue) (t : Option String) (raw : String)
    (htasks : lookupField fs "tasks" = .arr ts)
    (hintent : truthy (lookupField fs "intent") = true)
    (hraw : raw ≠ "") :
    detect (.objPayload (.obj fs)) t = .flatTasks ts false ∧
    detect (.strPayload raw (some (.obj fs))) t = .flatTasks ts false := by
  have hc1 : cond1 (.obj fs) = true := by
    unfold cond1
    show (truthy (lookupField fs "tasks") && isArray (lookupField fs "tasks") &&
      truthy (lookupField fs "intent")) = true
    rw [htasks, hintent]
    rfl
  have hbody : runBody (.obj fs) t = .ok (.flatTasks ts false) := by
    show classifyNonNull (.obj fs) t = .ok (.flatTasks ts false)
    unfold classifyNonNull
    rw [if_pos hc1]
    show Except.ok (Shape.flatTasks (asArr (lookupField fs "tasks")) false) =
      Except.ok (Shape.flatTasks ts false)
    rw [htasks]
    rfl
  exact ⟨detect_obj_ok (.obj fs) t _ rfl hbody,
         detect_str_ok raw (.obj fs) t _ hraw hbody⟩

/-- The spec's flat-task-list scenario payload. -/
def flatScenario : List (String × JsValue) :=
  [("tasks", .arr [.obj [("text", .str "buy milk"), ("done", .bool false)]]),
   ("intent", .str "new"), ("reason", .str "x")]

/-- C5 witness: the spec's scenario payload is dispatched to the flat task list
with `showCategories = false`, both as an object and as a parsed string. -/
theorem C5_flat_tasks_priority_witness :
    detect (.objPayload (.obj flatScenario)) none =
      .flatTasks [.obj [("text", .str "buy milk"), ("done", .bool false)]] false ∧
    detect (.strPayload "scenario" (some (.obj flatScenario))) none =
      .flatTasks [.obj [("text", .str "buy milk"), ("done", .bool false)]] false :=
  C5_flat_tasks_priority flatScenario
    [.obj [("text", .str "buy milk"), ("done", .bool false)]] none "scenario"
    rfl rfl (by decide)

/-! ## C6 -/

/-- The payload `{"categories": {"meat": []}}`. -/
def meatOnlyPayload : JsValue := .obj [("categories", .obj [("meat", .arr [])])]

/-- The payload `{"categories": {"bakery": []}}`. -/
def bakeryOnlyPayload : JsValue :=
  .obj [("categories", .obj [("bakery", .arr [])])]

/-- The payload `{"categories": {"other": []}}`. -/
def otherOnlyPayload : JsValue :=
  .obj [("categories", .obj [("other", .arr [])])]

/-- C6 counterexample: payloads whose `categories` object contains only the
`meat`, only the `bakery`, or only the `other` key are dispatched to the
unknown shape, not to the grocery categories shape — CASE 3 only tests the
`produce`, `dairy` and `pantry` keys. -/
theorem C6_counterexample :
    detect (.objPayload meatOnlyPayload) none = .unknown meatOnlyPayload ∧
    detect (.objPayload bakeryOnlyPayload) none = .unknown bakeryOnlyPayload ∧
    detect (.objPayload otherOnlyPayload) none = .unknown otherOnlyPayload :=
  ⟨rfl, rfl, rfl⟩

/-- C6 (amended): a payload whose `categories` object has a truthy `produce`,
`dairy` or `pantry` key — the only grocery keys the source tests — and that
does not satisfy the two earlier task-list rules is dispatched to the grocery
categories shape. -/
theorem C6_grocery_rule (fs cfs : List (String × JsValue)) (t : Option String)
    (hcats : lookupField fs "categories" = .obj cfs)
    (hkey : truthy (lookupField cfs "produce") = true ∨
            truthy (lookupField cfs "dairy") = true ∨
            truthy (lookupField cfs "pantry") = true)
    (h1 : cond1 (.obj fs) = false) (h2 : cond2 (.obj fs) = false) :
    detect (.objPayload (.obj fs)) t = .groceryCats (.obj fs) := by
  have hc3 : cond3 (.obj fs) = true := by
    unfold cond3
    show (truthy (lookupField fs "categories") &&
      typeofIsObject (lookupField fs "categories") &&
      (truthy (fieldOf (lookupField fs "categories") "produce") ||
       truthy (fieldOf (lookupField fs "categories") "dairy") ||
       truthy (fieldOf (lookupField fs "categories") "pantry"))) = true
    rw [hcats]
    show (true && true &&
      (truthy (lookupField cfs "produce") || truthy (lookupField cfs "dairy") ||
       truthy (lookupField cfs "pantry"))) = true
    rcases hkey with hk | hk | hk <;> rw [hk] <;> simp
  have hbody : runBody (.obj fs) t = .ok (.groceryCats (.obj fs)) := by
    show classifyNonNull (.obj fs) t = .ok (.groceryCats (.obj fs))
    unfold classifyNonNull
    rw [if_neg (by rw [h1]; exact Bool.false_ne_true),
        if_neg (by rw [h2]; exact Bool.false_ne_true), if_pos hc3]
  exact detect_obj_ok (.obj fs) t _ rfl hbody

/-- The spec's grocery-categories scenario payload: all six keys present,
`produce` non-empty. -/
def groceryScenario : List (String × JsValue) :=
  [("categories", .obj
    [("produce", .arr [.obj [("name", .str "apple"), ("quantity", .str "1"),
                             ("done", .bool false)]]),
     ("dairy", .arr []), ("meat", .arr []), ("bakery", .arr []),
     ("pantry", .arr []), ("other", .arr [])])]

/-- C6 witness: the spec's scenario payload is dispatched to the grocery
categories shape. -/
theorem C6_grocery_rule_witness :
    detect (.objPayload (.obj groceryScenario)) none =
      .groceryCats (.obj groceryScenario) :=
  C6_grocery_rule groceryScenario
    [("produce", .arr [.obj [("name", .str "apple"), ("quantity", .str "1"),
                             ("done", .bool false)]]),
     ("dairy", .arr []), ("meat", .arr []), ("bakery", .arr []),
     ("pantry", .arr []), ("other", .arr [])] none
    rfl (Or.inl rfl) rfl rfl

/-! ## C8 -/

/-- C8: whenever a payload reaches the classification body and the body throws,
the dispatcher returns the error shape carrying the exception message and the
raw original payload — the exception is never re-raised (`detect` is total). -/
theorem C8_error_containment (p : Payload) (t : Option String) (v : JsValue)
    (msg : String) (hv : bodyReached p = some v)
    (herr : runBody v t = .error msg) :
    detect p t = .errorShape msg p := by
  cases p with
  | strPayload raw parsed =>
      unfold bodyReached at hv
      dsimp only at hv
      by_cases hraw : raw = ""
      · rw [if_pos hraw] at hv
        cases hv
      · rw [if_neg hraw] at hv
        cases parsed with
        | none => cases hv
        | some w =>
            injection hv with hw
            rw [← hw] at herr
            exact detect_str_err raw w t msg hraw herr
  | objPayload w =>
      unfold bodyReached at hv
      dsimp only at hv
      by_cases htr : truthy w = true
      · rw [if_pos htr] at hv
        injection hv with hw
        rw [← hw] at herr
        exact detect_obj_err w t msg htr herr
      · rw [if_neg htr] at hv
        cases hv

/-- C8 witness: the string payload "null" parses to JSON `null`; the body's
first property access throws, and the dispatcher converts this into the error
shape carrying the message and the raw payload. -/
theorem C8_error_containment_witness :
    bodyReached (.strPayload "null" (some .null)) = some .null ∧
    runBody .null none =
      .error "Cannot read properties of null (reading tasks)" ∧
    detect (.strPayload "null" (some .null)) none =
      .errorShape "Cannot read properties of null (reading tasks)"
        (.strPayload "null" (some .null)) :=
  ⟨rfl, rfl,
   C8_error_containment (.strPayload "null" (some .null)) none .null
     "Cannot read properties of null (reading tasks)" rfl rfl⟩

/-! ## C9 -/

/-- C9: on any failure of the underlying AI call, each gateway returns its
documented safe default: `extractTasksFromText` an empty tasks array with
intent "new", `categorizeTasksAndSuggestNotes` empty tasks and noteGroups
arrays, and `extractGroceryList` a categories object whose six keys all map to
empty arrays. -/
theorem C9_gateway_defaults (e1 e2 e3 : String) :
    extractTasksFromText (.error e1) =
      ⟨.arr [], .str "new", .str "Error processing text"⟩ ∧
    categorizeTasksAndSuggestNotes (.error e2) =
      ⟨.arr [], .arr [], .str "Error processing text"⟩ ∧
    extractGroceryList (.error e3) = emptyGroceryCategories ∧
    ∀ k ∈ (["produce", "dairy", "meat", "bakery", "pantry", "other"] :
        List String),
      fieldOf (fieldOf (extractGroceryList (.error e3)) "categories") k =
        .arr [] := by
  refine ⟨rfl, rfl, rfl, ?_⟩
  intro k hk
  simp only [List.mem_cons, List.not_mem_nil, or_false] at hk
  rcases hk with rfl | rfl | rfl | rfl | rfl | rfl <;> rfl

/-- C9 witness: the defaults at a concrete failure message. -/
theorem C9_gateway_defaults_witness :
    extractTasksFromText (.error "network down") =
      ⟨.arr [], .str "new", .str "Error processing text"⟩ ∧
    categorizeTasksAndSuggestNotes (.error "network down") =
      ⟨.arr [], .arr [], .str "Error processing text"⟩ ∧
    extractGroceryList (.error "network down") = emptyGroceryCategories ∧
    ∀ k ∈ (["produce", "dairy", "meat", "bakery", "pantry", "other"] :
        List String),
      fieldOf (fieldOf (extractGroceryList (.error "network down"))
        "categories") k = .arr [] :=
  C9_gateway_defaults "network down" "network down" "network down"

end FloNotes
